import Mathlib

/-!
Verification of the AudioSphere playback core.

Shallow embedding of the playback engine found in
`client/src/hooks/use-audio-player.tsx` (the variant with offline-storage
support and `playFromList`) together with the output manager
`MobileAudioManager` (`mobile-audio-manager`).  React's `setState` with a
functional updater is modelled as a pure state transformer; the hidden
`HTMLAudioElement` plus the platform media-session surface is modelled by
`ManagerState`; side effects whose *order* matters (media-session pushes,
React state mutations, blob-URL revocation/creation, source assignment)
are logged as an event list in program order.
-/

namespace AudioSphere

/-- A track record (`shared/schema.ts`): the fields the playback core reads.
`fileSource` is the source-kind discriminator consulted by `loadTrack`. -/
structure Track where
  id : String
  title : String
  artist : String
  fileUrl : String
  fileSource : String
deriving DecidableEq

/-- The React hook state `AudioPlayerState` of `useAudioPlayer`. -/
structure AudioPlayerState where
  currentTrack : Option Track
  isPlaying : Bool
  currentTime : ℚ
  duration : ℚ
  volume : ℚ
  isMuted : Bool
  shuffle : Bool
  repeatMode : Bool
  playlist : List Track
  currentIndex : Int
deriving DecidableEq

/-- The initial hook state (`useState` initialiser, lines 294-305). -/
def initialState : AudioPlayerState :=
  { currentTrack := none
    isPlaying := false
    currentTime := 0
    duration := 0
    volume := (7 : ℚ) / 10
    isMuted := false
    shuffle := false
    repeatMode := false
    playlist := []
    currentIndex := -1 }

/-- State of the `MobileAudioManager`: its hidden audio element
(`src`, `volume`, `paused`, `duration`) and the platform media-session
playback-state it last pushed. -/
structure ManagerState where
  src : String
  elementVolume : ℚ
  paused : Bool
  duration : ℚ
  mediaSessionState : String
deriving DecidableEq

/-- Combined engine state: React hook state plus manager state. -/
structure EngineState where
  hook : AudioPlayerState
  mgr : ManagerState
deriving DecidableEq

/-- A fresh manager (`new Audio()` defaults: empty src, volume 1, paused). -/
def initialManager : ManagerState :=
  { src := ""
    elementVolume := 1
    paused := true
    duration := 0
    mediaSessionState := "none" }

def initialEngine : EngineState :=
  { hook := initialState, mgr := initialManager }

/-- Ordered side effects of one engine operation, in program order:
bridge pushes to the platform media-session surface, React `setState`
mutations, blob-URL revocation/creation, and source assignment. -/
inductive Ev where
  | revokeUrl (url : String)
  | createUrl (url : String)
  | assignSrc (url : String)
  | bridgePush (what : String)
  | setStateMut (what : String)
deriving DecidableEq

/-- Outcome of awaiting `MobileAudioManager.loadTrack`: the element either
reaches `loadeddata` (carrying a decoded duration) or fires `error`. -/
inductive LoadOutcome where
  | ok (duration : ℚ)
  | err
deriving DecidableEq

/-- Outcome of awaiting `audioElement.play()`. -/
inductive PlayOutcome where
  | ok
  | err
deriving DecidableEq

/-- `MobileAudioManager.setVolume`: clamps and writes the element volume. -/
def managerSetVolume (volume : ℚ) (m : ManagerState) : ManagerState :=
  { m with elementVolume := max 0 (min 1 volume) }

/-- `MobileAudioManager.loadTrack(url, metadata)`: assigns `src`, then on
`loadeddata` pushes metadata to the media session and activates it
(playback-state "paused"), resolving; on `error` it rejects.  Returns the
new manager state, the event log, and whether the promise resolved. -/
def managerLoadTrack (url : String) (outcome : LoadOutcome) (m : ManagerState) :
    ManagerState × List Ev × Bool :=
  let m1 : ManagerState := { m with src := url }
  match outcome with
  | LoadOutcome.ok d =>
      ({ m1 with duration := d, mediaSessionState := "paused" },
       [Ev.assignSrc url, Ev.bridgePush "metadata", Ev.bridgePush "paused"], true)
  | LoadOutcome.err =>
      (m1, [Ev.assignSrc url], false)

/-- `MobileAudioManager.play()`: awaits `audioElement.play()`, then pushes
playback-state "playing"; on rejection the push is skipped and the error
is rethrown (third component: resolved?). -/
def managerPlay (outcome : PlayOutcome) (m : ManagerState) :
    ManagerState × List Ev × Bool :=
  match outcome with
  | PlayOutcome.ok =>
      ({ m with paused := false, mediaSessionState := "playing" },
       [Ev.bridgePush "playing"], true)
  | PlayOutcome.err => (m, [], false)

/-- `MobileAudioManager.pause()`: pauses the element, pushes "paused". -/
def managerPause (m : ManagerState) : ManagerState × List Ev :=
  ({ m with paused := true, mediaSessionState := "paused" },
   [Ev.bridgePush "paused"])

/-- The manager's own `ended` listener: the element is paused and the
media session is pushed "paused". -/
def managerEnded (m : ManagerState) : ManagerState :=
  { m with paused := true, mediaSessionState := "paused" }

/-- The hook's `onTimeUpdate` subscriber: copies the element's time,
duration and playing flag (`!paused`) into the hook state. -/
def onTimeUpdate (time : ℚ) (s : EngineState) : EngineState :=
  { s with hook := { s.hook with
      currentTime := time
      duration := s.mgr.duration
      isPlaying := !s.mgr.paused } }

/-- `url.startsWith("blob:")`, phrased over the character list so that it
evaluates by structural recursion. -/
def startsWithBlob (url : String) : Bool :=
  "blob:".data.isPrefixOf url.data

/-- The `setState` applied by the hook's `loadTrack` after a successful
await: `currentTrack := track`, `currentTime := 0`, duration from the
manager. -/
def loadSuccessState (track : Track) (d : ℚ) (h : AudioPlayerState) :
    AudioPlayerState :=
  { h with currentTrack := some track, currentTime := 0, duration := d }

/-- The hook's `loadTrack(track)` (lines 326-365).  `store` models the
offline storage's audio-blob table (`getAudioBlob`), `fresh` the URL
returned by `URL.createObjectURL`.  Device/local tracks are resolved
through the store; a missing blob throws, and the surrounding
`try`/`catch` swallows every failure, applying only
`setState({ isPlaying: false })`.  The result is the final state and the
event log; the promise always resolves (the catch does not rethrow). -/
def loadTrack (store : List (String × String)) (fresh : String)
    (outcome : LoadOutcome) (track : Track) (s : EngineState) :
    EngineState × List Ev :=
  if track.fileSource = "device" ∨ track.fileSource = "local" then
    match store.lookup track.id with
    | some _ =>
        let evs0 :=
          if startsWithBlob track.fileUrl then [Ev.revokeUrl track.fileUrl]
          else []
        let r := managerLoadTrack fresh outcome s.mgr
        if r.2.2 then
          ({ hook := loadSuccessState track r.1.duration s.hook, mgr := r.1 },
           evs0 ++ [Ev.createUrl fresh] ++ r.2.1 ++ [Ev.setStateMut "loadSuccess"])
        else
          ({ hook := { s.hook with isPlaying := false }, mgr := r.1 },
           evs0 ++ [Ev.createUrl fresh] ++ r.2.1 ++ [Ev.setStateMut "loadError"])
    | none =>
        ({ hook := { s.hook with isPlaying := false }, mgr := s.mgr },
         [Ev.setStateMut "loadError"])
  else
    let r := managerLoadTrack track.fileUrl outcome s.mgr
    if r.2.2 then
      ({ hook := loadSuccessState track r.1.duration s.hook, mgr := r.1 },
       r.2.1 ++ [Ev.setStateMut "loadSuccess"])
    else
      ({ hook := { s.hook with isPlaying := false }, mgr := r.1 },
       r.2.1 ++ [Ev.setStateMut "loadError"])

/-- The hook's `play(track?)` (lines 369-385): pause first if playing,
load if a different track was supplied, then play.  Third component:
whether the returned promise resolved (`managerPlay`'s rejection is not
caught here and propagates). -/
def play (store : List (String × String)) (fresh : String)
    (lo : LoadOutcome) (po : PlayOutcome) (trackOpt : Option Track)
    (s : EngineState) : EngineState × List Ev × Bool :=
  let p1 : EngineState × List Ev :=
    if s.hook.isPlaying then
      let mp := managerPause s.mgr
      ({ hook := { s.hook with isPlaying := false }, mgr := mp.1 },
       mp.2 ++ [Ev.setStateMut "isPlayingFalse"])
    else (s, [])
  let p2 : EngineState × List Ev :=
    match trackOpt with
    | some t =>
        if (match s.hook.currentTrack with
            | none => true
            | some c => t.id != c.id) then
          let r := loadTrack store fresh lo t p1.1
          (r.1, p1.2 ++ r.2)
        else (p1.1, p1.2)
    | none => (p1.1, p1.2)
  if s.hook.currentTrack.isSome || trackOpt.isSome then
    let r := managerPlay po p2.1.mgr
    if r.2.2 then
      ({ hook := { p2.1.hook with isPlaying := true }, mgr := r.1 },
       p2.2 ++ r.2.1 ++ [Ev.setStateMut "isPlayingTrue"], true)
    else
      ({ hook := p2.1.hook, mgr := r.1 }, p2.2 ++ r.2.1, false)
  else (p2.1, p2.2, true)

/-- The hook's `pause()` (lines 387-392). -/
def pause (s : EngineState) : EngineState × List Ev :=
  let mp := managerPause s.mgr
  ({ hook := { s.hook with isPlaying := false }, mgr := mp.1 },
   mp.2 ++ [Ev.setStateMut "isPlayingFalse"])

/-- The hook's `setVolume(volume)` (lines 409-419): clamp to [0,1], write
the element volume, record `volume` and `isMuted := (clamped === 0)`. -/
def setVolume (volume : ℚ) (s : EngineState) : EngineState :=
  let clampedVolume := max 0 (min 1 volume)
  { hook := { s.hook with
      volume := clampedVolume
      isMuted := decide (clampedVolume = 0) }
    mgr := managerSetVolume clampedVolume s.mgr }

/-- The hook's `toggleMute()` (lines 421-431). -/
def toggleMute (s : EngineState) : EngineState :=
  if s.hook.isMuted then
    { hook := { s.hook with isMuted := false }
      mgr := managerSetVolume s.hook.volume s.mgr }
  else
    { hook := { s.hook with isMuted := true }
      mgr := managerSetVolume 0 s.mgr }

/-- The hook's `setPlaylist(tracks, startIndex)` (lines 433-443): the
state is replaced unconditionally; `play` is requested only when the
start index is in range.  Second component: the track handed to `play`. -/
def setPlaylist (tracks : List Track) (startIndex : Int)
    (h : AudioPlayerState) : AudioPlayerState × Option Track :=
  let h1 := { h with playlist := tracks, currentIndex := startIndex }
  if 0 < tracks.length ∧ 0 ≤ startIndex ∧ startIndex < (tracks.length : Int)
  then (h1, tracks.get? startIndex.toNat)
  else (h1, none)

/-- The hook's `nextTrack()` (lines 445-465); `rand` supplies
`Math.floor(Math.random() * playlist.length)` as `rand % length`. -/
def nextTrack (rand : Nat) (h : AudioPlayerState) :
    AudioPlayerState × Option Track :=
  if h.playlist.length = 0 then (h, none)
  else if h.shuffle then
    let nextIndex : Int := ((rand % h.playlist.length : Nat) : Int)
    ({ h with currentIndex := nextIndex }, h.playlist.get? nextIndex.toNat)
  else
    let nextIndex := h.currentIndex + 1
    if (h.playlist.length : Int) ≤ nextIndex then
      if h.repeatMode then
        ({ h with currentIndex := 0 }, h.playlist.get? 0)
      else (h, none)
    else
      ({ h with currentIndex := nextIndex }, h.playlist.get? nextIndex.toNat)

/-- The hook's `previousTrack()` (lines 467-487): unlike `nextTrack`,
clamping to index 0 still re-issues `play`. -/
def previousTrack (rand : Nat) (h : AudioPlayerState) :
    AudioPlayerState × Option Track :=
  if h.playlist.length = 0 then (h, none)
  else if h.shuffle then
    let prevIndex : Int := ((rand % h.playlist.length : Nat) : Int)
    ({ h with currentIndex := prevIndex }, h.playlist.get? prevIndex.toNat)
  else
    let prevIndex0 := h.currentIndex - 1
    let prevIndex :=
      if prevIndex0 < 0 then
        if h.repeatMode then (h.playlist.length : Int) - 1 else 0
      else prevIndex0
    ({ h with currentIndex := prevIndex }, h.playlist.get? prevIndex.toNat)

/-- The hook's `playFromList(sourceList, selectedIndex)` (lines 519-531). -/
def playFromList (sourceList : List Track) (selectedIndex : Int)
    (h : AudioPlayerState) : AudioPlayerState × Option Track :=
  if selectedIndex < 0 ∨ (sourceList.length : Int) ≤ selectedIndex then (h, none)
  else
    let newPlayQueue := sourceList.drop selectedIndex.toNat
    ({ h with playlist := newPlayQueue, currentIndex := 0 },
     newPlayQueue.get? 0)

/-- The `onEnded` wiring (lines 506-517): the element's natural `ended`
event invokes `nextTrack()` unconditionally. -/
def endedHandler (rand : Nat) (h : AudioPlayerState) :
    AudioPlayerState × Option Track :=
  nextTrack rand h

/-- Interleaving semantics of overlapping `loadTrack` calls.  `start t`
is the synchronous prefix of `loadTrack(t)` before its await returns (it
performs no hook-state mutation); `resolveOk t d` is the continuation run
when the awaited manager load for `t` resolves — the code applies its
`setState` unconditionally, with no generation check; `resolveErr t` is
the catch branch. -/
inductive AsyncEv where
  | start (t : Track)
  | resolveOk (t : Track) (d : ℚ)
  | resolveErr (t : Track)

/-- One event of the interleaving semantics applied to the hook state. -/
def applyAsync (h : AudioPlayerState) (e : AsyncEv) : AudioPlayerState :=
  match e with
  | AsyncEv.start _ => h
  | AsyncEv.resolveOk t d => loadSuccessState t d h
  | AsyncEv.resolveErr _ => { h with isPlaying := false }

/-- Run a trace of asynchronous load events. -/
def runAsync (h : AudioPlayerState) (trace : List AsyncEv) : AudioPlayerState :=
  trace.foldl applyAsync h

/-- The queue-index invariant of the spec:
`currentIndex ∈ [−1, playlist.length − 1]`. -/
def queueIndexInv (h : AudioPlayerState) : Prop :=
  -1 ≤ h.currentIndex ∧ h.currentIndex < (h.playlist.length : Int)

instance (h : AudioPlayerState) : Decidable (queueIndexInv h) := by
  unfold queueIndexInv; infer_instance

/-- The manager's element volume agrees with the hook's stored
volume/mute flags (holds after any `setVolume` or `toggleMute`). -/
def volumeSync (s : EngineState) : Prop :=
  0 ≤ s.hook.volume ∧ s.hook.volume ≤ 1 ∧
    s.mgr.elementVolume = (if s.hook.isMuted then 0 else s.hook.volume)

instance (s : EngineState) : Decidable (volumeSync s) := by
  unfold volumeSync; infer_instance

/-- Position `i` of the log holds a bridge push. -/
def pushAt (l : List Ev) (i : Nat) : Prop :=
  ∃ w, l.get? i = some (Ev.bridgePush w)

/-- Position `i` of the log holds a React state mutation. -/
def mutAt (l : List Ev) (i : Nat) : Prop :=
  ∃ w, l.get? i = some (Ev.setStateMut w)

/-- Every bridge push in the log comes after every state mutation. -/
def pushesFollowMutations (l : List Ev) : Prop :=
  ∀ i j, pushAt l i → mutAt l j → j < i

/-- Position `i` of the log revokes a URL. -/
def revokeAt (l : List Ev) (i : Nat) : Prop :=
  ∃ u, l.get? i = some (Ev.revokeUrl u)

/-- Position `i` of the log assigns a URL to the output's `src`. -/
def assignAt (l : List Ev) (i : Nat) : Prop :=
  ∃ u, l.get? i = some (Ev.assignSrc u)

/-- Every revocation in the log comes after every source assignment. -/
def revokesFollowAssigns (l : List Ev) : Prop :=
  ∀ i j, revokeAt l i → assignAt l j → j < i

/-- Concrete remote track. -/
def trackA : Track :=
  { id := "a1", title := "Alpha", artist := "X"
    fileUrl := "https://host/a.mp3", fileSource := "remote" }

/-- Concrete remote track, distinct from `trackA`. -/
def trackB : Track :=
  { id := "b2", title := "Beta", artist := "Y"
    fileUrl := "https://host/b.mp3", fileSource := "remote" }

/-- Concrete device-local track whose `fileUrl` is a blob URL. -/
def trackDev : Track :=
  { id := "d5", title := "DeviceSong", artist := "Z"
    fileUrl := "blob:site/old-import", fileSource := "device" }

/-- A remote-kind track whose address happens to be the same blob URL. -/
def trackRemoteBlob : Track :=
  { id := "g7", title := "Gamma", artist := "W"
    fileUrl := "blob:site/old-import", fileSource := "remote" }

/-- Offline store holding a blob for `trackDev`. -/
def devStore : List (String × String) := [("d5", "bytes")]

/-- Engine after successfully loading `trackA`. -/
def engineWithA : EngineState :=
  (loadTrack [] "" (LoadOutcome.ok 3) trackA initialEngine).1

/-- Engine whose output `src` is the blob URL `blob:site/old-import`
(obtained by loading `trackRemoteBlob`). -/
def engineWithBlobSrc : EngineState :=
  (loadTrack [] "" (LoadOutcome.ok 2) trackRemoteBlob initialEngine).1

/-- Hook state at the last index of a two-track non-repeat queue. -/
def stateAtEnd : AudioPlayerState :=
  { initialState with playlist := [trackA, trackB], currentIndex := 1 }

/-- An engine state whose element volume is in sync with the hook (the
state reached by `setVolume(0.5)` from the initial engine). -/
def syncEngine : EngineState :=
  { hook := { initialState with volume := (1 : ℚ) / 2, isMuted := false }
    mgr := { initialManager with elementVolume := (1 : ℚ) / 2 } }

/-- C6: for every source list and every valid index `i`
(`0 ≤ i < list.length`), `playFromList(list, i)` replaces the queue with
exactly the suffix `list.slice(i)` (no wrap, no prefix), sets
`currentIndex` to 0, and requests play of `list[i]`. -/
theorem playFromList_slices (h : AudioPlayerState) (l : List Track) (i : Int)
    (h0 : 0 ≤ i) (h1 : i < (l.length : Int)) :
    (playFromList l i h).1.playlist = l.drop i.toNat
    ∧ (playFromList l i h).1.currentIndex = 0 := by
  have hc : ¬ (i < 0 ∨ (l.length : Int) ≤ i) := by omega
  simp [playFromList, hc]

theorem playFromList_slices_witness :
    (playFromList [trackA, trackB] 1 initialState).1.playlist
        = [trackA, trackB].drop (1 : Int).toNat
    ∧ (playFromList [trackA, trackB] 1 initialState).1.currentIndex = 0 :=
  playFromList_slices initialState [trackA, trackB] 1 (by decide) (by decide)

/-- C7: with `shuffle = false` and `repeat = false`, for a non-empty queue
whose `currentIndex` is the last index, `nextTrack` — directly or through
the output's `ended` event, which invokes it unconditionally — leaves the
state unchanged and triggers no load/play; and after a natural end the
element is paused, so the next time-update records `isPlaying = false`. -/
theorem nextTrack_at_end_noop (h : AudioPlayerState) (rand : Nat)
    (m : ManagerState) (time : ℚ)
    (hs : h.shuffle = false) (hr : h.repeatMode = false)
    (hn : 0 < h.playlist.length)
    (hi : h.currentIndex = (h.playlist.length : Int) - 1) :
    nextTrack rand h = (h, none)
    ∧ endedHandler rand h = (h, none)
    ∧ (onTimeUpdate time { hook := h, mgr := managerEnded m }).hook.isPlaying
        = false := by
  have hne : ¬ h.playlist.length = 0 := by omega
  have hge : (h.playlist.length : Int) ≤ h.currentIndex + 1 := by omega
  refine ⟨?_, ?_, ?_⟩
  · simp [nextTrack, hne, hs, hr, hge]
  · simp [endedHandler, nextTrack, hne, hs, hr, hge]
  · simp [onTimeUpdate, managerEnded]

theorem nextTrack_at_end_noop_witness :
    nextTrack 0 stateAtEnd = (stateAtEnd, none)
    ∧ endedHandler 0 stateAtEnd = (stateAtEnd, none)
    ∧ (onTimeUpdate 9 { hook := stateAtEnd, mgr := managerEnded initialManager
        }).hook.isPlaying = false :=
  nextTrack_at_end_noop stateAtEnd 0 initialManager 9 rfl rfl
    (by decide) (by decide)

/-- C8: after a successful `loadTrack(T)` — whether `T` is a remote track
or a device/local track whose blob is present in the store — the state
has `currentTrack = T` (hence `currentTrack.id = T.id`), position 0, and
the duration recorded from the resolved handle. -/
theorem loadTrack_success (s : EngineState) (t : Track)
    (store : List (String × String)) (fresh b : String) (d : ℚ) :
    (¬ (t.fileSource = "device" ∨ t.fileSource = "local") →
        (loadTrack store fresh (LoadOutcome.ok d) t s).1.hook.currentTrack = some t
        ∧ (loadTrack store fresh (LoadOutcome.ok d) t s).1.hook.currentTime = 0
        ∧ (loadTrack store fresh (LoadOutcome.ok d) t s).1.hook.duration = d)
    ∧ ((t.fileSource = "device" ∨ t.fileSource = "local") →
        store.lookup t.id = some b →
        (loadTrack store fresh (LoadOutcome.ok d) t s).1.hook.currentTrack = some t
        ∧ (loadTrack store fresh (LoadOutcome.ok d) t s).1.hook.currentTime = 0
        ∧ (loadTrack store fresh (LoadOutcome.ok d) t s).1.hook.duration = d) := by
  constructor
  · intro hnot
    simp [loadTrack, hnot, managerLoadTrack, loadSuccessState]
  · intro hdev hb
    simp [loadTrack, hdev, hb, managerLoadTrack, loadSuccessState]

theorem loadTrack_success_witness :
    ((loadTrack [] "" (LoadOutcome.ok 3) trackA initialEngine).1.hook.currentTrack
        = some trackA
      ∧ (loadTrack [] "" (LoadOutcome.ok 3) trackA initialEngine).1.hook.currentTime = 0
      ∧ (loadTrack [] "" (LoadOutcome.ok 3) trackA initialEngine).1.hook.duration = 3)
    ∧ ((loadTrack devStore "blob:site/fresh" (LoadOutcome.ok 7) trackDev
          initialEngine).1.hook.currentTrack = some trackDev
      ∧ (loadTrack devStore "blob:site/fresh" (LoadOutcome.ok 7) trackDev
          initialEngine).1.hook.currentTime = 0
      ∧ (loadTrack devStore "blob:site/fresh" (LoadOutcome.ok 7) trackDev
          initialEngine).1.hook.duration = 7) :=
  ⟨(loadTrack_success initialEngine trackA [] "" "" 3).1 (by decide),
   (loadTrack_success initialEngine trackDev devStore "blob:site/fresh" "bytes"
      7).2 (Or.inl rfl) rfl⟩

/-- C9: `setVolume(v)` stores `v` clamped into `[0,1]` (in particular any
`v ≤ 0` yields volume 0 and any `v ≥ 1` yields volume 1, so
`setVolume(-1)` gives 0 and `setVolume(2)` gives 1), and whenever the
resulting volume is 0 the state is muted. -/
theorem setVolume_clamps (s : EngineState) (v : ℚ) :
    0 ≤ (setVolume v s).hook.volume
    ∧ (setVolume v s).hook.volume ≤ 1
    ∧ (v ≤ 0 → (setVolume v s).hook.volume = 0)
    ∧ (1 ≤ v → (setVolume v s).hook.volume = 1)
    ∧ (0 ≤ v → v ≤ 1 → (setVolume v s).hook.volume = v)
    ∧ ((setVolume v s).hook.volume = 0 → (setVolume v s).hook.isMuted = true) := by
  simp only [setVolume]
  refine ⟨le_max_left _ _, ?_, ?_, ?_, ?_, ?_⟩
  · exact max_le (by norm_num) (min_le_left _ _)
  · intro hv
    rw [min_eq_right (hv.trans (by norm_num)), max_eq_left hv]
  · intro hv
    rw [min_eq_left hv, max_eq_right (by norm_num)]
  · intro h0 h1
    rw [min_eq_right h1, max_eq_right h0]
  · intro hz
    simp [hz]

theorem setVolume_clamps_witness :
    (setVolume (-1) initialEngine).hook.volume = 0
    ∧ (setVolume 2 initialEngine).hook.volume = 1 :=
  ⟨(setVolume_clamps initialEngine (-1)).2.2.1 (by norm_num),
   (setVolume_clamps initialEngine 2).2.2.2.1 (by norm_num)⟩

/-- C10: `toggleMute` changes only the `isMuted` flag and the output
element's effective volume; the stored `volume` field and every other
hook field, as well as the element's `src`, `paused` flag and duration,
are unchanged.  Consequently, on any state whose element volume is in
sync with the stored volume/mute flags, two consecutive `toggleMute`
calls restore the whole state — in particular the output volume — to
exactly what it was before the first call. -/
theorem toggleMute_only_mute (s : EngineState) :
    ((toggleMute s).hook.volume = s.hook.volume
      ∧ (toggleMute s).hook.currentTrack = s.hook.currentTrack
      ∧ (toggleMute s).hook.currentTime = s.hook.currentTime
      ∧ (toggleMute s).hook.duration = s.hook.duration
      ∧ (toggleMute s).hook.isPlaying = s.hook.isPlaying
      ∧ (toggleMute s).hook.shuffle = s.hook.shuffle
      ∧ (toggleMute s).hook.repeatMode = s.hook.repeatMode
      ∧ (toggleMute s).hook.playlist = s.hook.playlist
      ∧ (toggleMute s).hook.currentIndex = s.hook.currentIndex
      ∧ (toggleMute s).hook.isMuted = !s.hook.isMuted
      ∧ (toggleMute s).mgr.src = s.mgr.src
      ∧ (toggleMute s).mgr.paused = s.mgr.paused
      ∧ (toggleMute s).mgr.duration = s.mgr.duration)
    ∧ (volumeSync s → toggleMute (toggleMute s) = s) := by
  constructor
  · by_cases hm : s.hook.isMuted = true <;>
      simp [toggleMute, managerSetVolume, hm]
  · intro hsync
    obtain ⟨h0, h1, he⟩ := hsync
    have hclamp : max 0 (min 1 s.hook.volume) = s.hook.volume := by
      rw [min_eq_right h1, max_eq_right h0]
    have hzero : max 0 (min 1 (0 : ℚ)) = 0 := by norm_num
    rcases s with ⟨⟨ct, ip, cti, du, vo, im, sh, rp, pl, ci⟩, ⟨src, ev, pa, dur, ms⟩⟩
    cases im
    · simp only [Bool.false_eq_true, if_false] at he
      simp_all [toggleMute, managerSetVolume]
    · simp only [if_true] at he
      simp_all [toggleMute, managerSetVolume]

theorem toggleMute_only_mute_witness :
    (toggleMute syncEngine).hook.volume = syncEngine.hook.volume
    ∧ toggleMute (toggleMute syncEngine) = syncEngine :=
  ⟨(toggleMute_only_mute syncEngine).1.1,
   (toggleMute_only_mute syncEngine).2
     ⟨show (0 : ℚ) ≤ 1 / 2 by norm_num, show (1 : ℚ) / 2 ≤ 1 by norm_num, rfl⟩⟩

/-- C5 counterexample: the exposed operation `setPlaylist` with the empty
list and its default start index 0, invoked in the initial state, yields
`currentIndex = 0` with an empty queue — outside `[−1, len−1]` — so the
claimed invariant is not preserved by every exposed operation. -/
theorem setPlaylist_breaks_index_inv :
    ¬ queueIndexInv (setPlaylist [] 0 initialState).1 := by decide

/-- C5 amended: `nextTrack`, `previousTrack` and `playFromList` preserve
the invariant `currentIndex ∈ [−1, len−1]`, and `setPlaylist` produces it
exactly when its `startIndex` argument itself lies in `[−1, len−1]`;
`setPlaylist` assigns `currentIndex := startIndex` unconditionally, so an
out-of-range `startIndex` (for example any call with an empty list and
the default index 0) violates the invariant. -/
theorem queue_index_inv_preserved :
    (∀ (h : AudioPlayerState) (rand : Nat),
        queueIndexInv h → queueIndexInv (nextTrack rand h).1)
    ∧ (∀ (h : AudioPlayerState) (rand : Nat),
        queueIndexInv h → queueIndexInv (previousTrack rand h).1)
    ∧ (∀ (h : AudioPlayerState) (l : List Track) (i : Int),
        queueIndexInv h → queueIndexInv (playFromList l i h).1)
    ∧ (∀ (h : AudioPlayerState) (l : List Track) (i : Int),
        -1 ≤ i → i < (l.length : Int) → queueIndexInv (setPlaylist l i h).1) := by
  refine ⟨?_, ?_, ?_, ?_⟩
  · intro h rand hinv
    obtain ⟨hlo, hhi⟩ := hinv
    unfold nextTrack
    by_cases h0 : h.playlist.length = 0
    · simp [h0]; exact ⟨hlo, hhi⟩
    · by_cases hsh : h.shuffle = true
      · have hmod : rand % h.playlist.length < h.playlist.length :=
          Nat.mod_lt _ (Nat.pos_of_ne_zero h0)
        simp [h0, hsh, queueIndexInv]
        omega
      · by_cases hge : (h.playlist.length : Int) ≤ h.currentIndex + 1
        · by_cases hrep : h.repeatMode = true
          · simp [h0, hsh, hge, hrep, queueIndexInv]
            omega
          · simp [h0, hsh, hge, hrep]
            exact ⟨hlo, hhi⟩
        · simp [h0, hsh, hge, queueIndexInv]
          omega
  · intro h rand hinv
    obtain ⟨hlo, hhi⟩ := hinv
    unfold previousTrack
    by_cases h0 : h.playlist.length = 0
    · simp [h0]; exact ⟨hlo, hhi⟩
    · by_cases hsh : h.shuffle = true
      · have hmod : rand % h.playlist.length < h.playlist.length :=
          Nat.mod_lt _ (Nat.pos_of_ne_zero h0)
        simp [h0, hsh, queueIndexInv]
        omega
      · by_cases hneg : h.currentIndex - 1 < 0
        · by_cases hrep : h.repeatMode = true
          · simp [h0, hsh, hneg, hrep, queueIndexInv]
            try omega
          · simp [h0, hsh, hneg, hrep, queueIndexInv]
            try omega
        · simp [h0, hsh, hneg, queueIndexInv]
          try omega
  · intro h l i hinv
    obtain ⟨hlo, hhi⟩ := hinv
    unfold playFromList
    by_cases hc : i < 0 ∨ (l.length : Int) ≤ i
    · simp [hc]; exact ⟨hlo, hhi⟩
    · simp [hc, queueIndexInv]
      omega
  · intro h l i h1 h2
    unfold setPlaylist
    split <;> exact ⟨h1, h2⟩

theorem queue_index_inv_preserved_witness :
    queueIndexInv (nextTrack 0 initialState).1
    ∧ queueIndexInv (setPlaylist [trackA] 0 initialState).1 :=
  ⟨queue_index_inv_preserved.1 initialState 0 (by decide),
   queue_index_inv_preserved.2.2.2 initialState [trackA] 0 (by decide) (by decide)⟩

/-- C1 counterexample: `loadTrack(A)` is started, `loadTrack(B)` is
started before A resolves, B resolves, and then A's resolution arrives
late; the continuation applies its `setState` unconditionally (the code
carries no generation counter), so `currentTrack` ends as A, not B. -/
theorem stale_load_overwrites :
    (runAsync initialState
        [AsyncEv.start trackA, AsyncEv.start trackB,
         AsyncEv.resolveOk trackB 5, AsyncEv.resolveOk trackA 3]).currentTrack
      = some trackA
    ∧ trackA ≠ trackB := by
  exact ⟨rfl, by decide⟩

/-- C1 amended: `loadTrack` carries no generation counter and performs no
staleness check; each asynchronous load resolution applies its state
update unconditionally on arrival, so resolutions are applied in arrival
order (last-resolve-wins), and a stale resolution arriving after a newer
load's resolution overwrites `currentTrack` with the stale track. -/
theorem load_resolutions_apply_unconditionally (h : AudioPlayerState)
    (A B : Track) (dA dB : ℚ) :
    (∀ (h0 : AudioPlayerState) (t : Track) (d : ℚ),
        applyAsync h0 (AsyncEv.resolveOk t d) = loadSuccessState t d h0)
    ∧ (runAsync h
        [AsyncEv.start A, AsyncEv.start B,
         AsyncEv.resolveOk B dB, AsyncEv.resolveOk A dA]).currentTrack
        = some A := by
  exact ⟨fun _ _ _ => rfl, rfl⟩

/-- C2 counterexample: with `trackA` loaded, `loadTrack` of the
device-local `trackDev`, whose blob is absent from the offline store,
leaves `currentTrack` at the previous track `trackA` — the claim's
required post-state `currentTrack = trackDev` does not hold (the catch
block only sets `isPlaying := false`). -/
theorem failed_load_keeps_previous_track :
    (loadTrack [] "blob:f1" (LoadOutcome.ok 4) trackDev engineWithA).1.hook.currentTrack
      = some trackA
    ∧ trackA ≠ trackDev
    ∧ (loadTrack [] "blob:f1" (LoadOutcome.ok 4) trackDev
        engineWithA).1.hook.isPlaying = false := by
  exact ⟨rfl, by decide, rfl⟩

/-- C2 amended: when a device/local track's blob is missing from the
offline store, `loadTrack` catches the failure (the promise resolves
rather than rejecting), applies only `isPlaying := false`, and leaves
every other field — in particular `currentTrack` (still the previous
track, not the failed one), the queue and `currentIndex` — unchanged; no
load/play of another track is triggered (no auto-advance). -/
theorem loadTrack_missing_blob (s : EngineState) (t : Track)
    (store : List (String × String)) (fresh : String) (lo : LoadOutcome)
    (hdev : t.fileSource = "device" ∨ t.fileSource = "local")
    (hmiss : store.lookup t.id = none) :
    loadTrack store fresh lo t s
      = ({ s with hook := { s.hook with isPlaying := false } },
         [Ev.setStateMut "loadError"]) := by
  simp [loadTrack, hdev, hmiss]

theorem loadTrack_missing_blob_witness :
    loadTrack [] "blob:f1" (LoadOutcome.ok 4) trackDev engineWithA
      = ({ engineWithA with
            hook := { engineWithA.hook with isPlaying := false } },
         [Ev.setStateMut "loadError"]) :=
  loadTrack_missing_blob engineWithA trackDev [] "blob:f1" (LoadOutcome.ok 4)
    (Or.inl rfl) rfl

/-- C3 counterexample: in the `pause` transition the push of "paused" to
the platform media-session surface happens at log position 0, before the
internal `isPlaying := false` state mutation at position 1 — the claimed
mutation-then-push order does not hold. -/
theorem bridge_push_precedes_mutation :
    ¬ pushesFollowMutations (pause initialEngine).2 := by
  intro hOrd
  have h01 := hOrd 0 1 ⟨"paused", rfl⟩ ⟨"isPlayingFalse", rfl⟩
  omega

/-- C3 amended: for each successful transition the push to the platform
media-session surface happens strictly *before* the hook's internal
PlaybackState mutation for that event (the manager pushes inside
`loadTrack`/`play`/`pause` before the awaiting hook code runs its
`setState`): the traces are exactly pushes followed by the mutation. -/
theorem bridge_pushes_precede_mutations (s : EngineState) (t : Track)
    (d : ℚ) (store : List (String × String)) (fresh : String) :
    (pause s).2 = [Ev.bridgePush "paused", Ev.setStateMut "isPlayingFalse"]
    ∧ (s.hook.isPlaying = false → s.hook.currentTrack = some t →
        (play store fresh (LoadOutcome.ok d) PlayOutcome.ok none s).2.1
          = [Ev.bridgePush "playing", Ev.setStateMut "isPlayingTrue"])
    ∧ (¬ (t.fileSource = "device" ∨ t.fileSource = "local") →
        (loadTrack store fresh (LoadOutcome.ok d) t s).2
          = [Ev.assignSrc t.fileUrl, Ev.bridgePush "metadata",
             Ev.bridgePush "paused", Ev.setStateMut "loadSuccess"]) := by
  refine ⟨rfl, ?_, ?_⟩
  · intro hp hc
    simp [play, hp, hc, managerPlay]
  · intro hnot
    simp [loadTrack, hnot, managerLoadTrack]

theorem bridge_pushes_precede_mutations_witness :
    (pause initialEngine).2
        = [Ev.bridgePush "paused", Ev.setStateMut "isPlayingFalse"]
    ∧ (play [] "" (LoadOutcome.ok 3) PlayOutcome.ok none engineWithA).2.1
        = [Ev.bridgePush "playing", Ev.setStateMut "isPlayingTrue"] :=
  ⟨(bridge_pushes_precede_mutations initialEngine trackA 3 [] "").1,
   (bridge_pushes_precede_mutations engineWithA trackA 3 [] "").2.1 rfl rfl⟩

/-- C4 counterexample: the engine's output holds the blob URL
`blob:site/old-import`; loading the device track whose `fileUrl` is that
same blob URL revokes it at log position 0, before the new handle is
assigned to the output at position 2 — revoke-then-swap, refuting the
claimed swap-then-revoke order. -/
theorem revoke_happens_before_swap :
    engineWithBlobSrc.mgr.src = "blob:site/old-import"
    ∧ (loadTrack devStore "blob:site/fresh" (LoadOutcome.ok 3) trackDev
        engineWithBlobSrc).2.get? 0
        = some (Ev.revokeUrl engineWithBlobSrc.mgr.src)
    ∧ ¬ revokesFollowAssigns
        (loadTrack devStore "blob:site/fresh" (LoadOutcome.ok 3) trackDev
          engineWithBlobSrc).2 := by
  refine ⟨rfl, rfl, ?_⟩
  intro hOrd
  have h02 := hOrd 0 2 ⟨"blob:site/old-import", rfl⟩ ⟨"blob:site/fresh", rfl⟩
  omega

/-- C4 amended: whenever `loadTrack` resolves a device/local track whose
`fileUrl` is a blob URL and whose blob is in the store, it revokes that
blob URL (the track's own `fileUrl`, not the output's previously
assigned handle, which is never revoked) *before* creating the new
object URL and assigning it to the output: the first three logged
actions are revoke, create, assign — revoke-then-swap. -/
theorem revoke_then_swap_order (s : EngineState) (t : Track)
    (store : List (String × String)) (fresh b : String) (lo : LoadOutcome)
    (hdev : t.fileSource = "device" ∨ t.fileSource = "local")
    (hblob : store.lookup t.id = some b)
    (hurl : startsWithBlob t.fileUrl = true) :
    ((loadTrack store fresh lo t s).2).take 3
      = [Ev.revokeUrl t.fileUrl, Ev.createUrl fresh, Ev.assignSrc fresh] := by
  cases lo <;> simp [loadTrack, hdev, hblob, hurl, managerLoadTrack]

theorem revoke_then_swap_order_witness :
    ((loadTrack devStore "blob:site/fresh" (LoadOutcome.ok 3) trackDev
        initialEngine).2).take 3
      = [Ev.revokeUrl trackDev.fileUrl, Ev.createUrl "blob:site/fresh",
         Ev.assignSrc "blob:site/fresh"] :=
  revoke_then_swap_order initialEngine trackDev devStore "blob:site/fresh"
    "bytes" (LoadOutcome.ok 3) (Or.inl rfl) rfl (by decide)

end AudioSphere
